import Mathlib

/-!
Verification of the africa-payments-mcp Python SDK core
(`sdks/python/africa_payments_mcp/`): the error taxonomy
(`exceptions.py`), the request/retry pipeline, polling, webhook
verification and dispatch (`client.py`), and the data model
(`models.py`), shallowly embedded in Lean 4.

Python exceptions are embedded as `Except`: a function that can raise
returns `Except PyException A`, where `Except.error` is a raised
exception and `Except.ok` a normal return.  Python dicts whose shape
matters are embedded as association lists or records of `Option`
fields (absent key = `none`).
-/

set_option allowUnsafeReducibility true

attribute [local semireducible] Rat.add Rat.mul Rat.sub Rat.inv Rat.div Rat.neg

/-- Equality on `Except` is decidable when it is on both components;
needed to settle closed evaluation facts by `decide`. -/
instance instDecEqExcept {ε α : Type} [DecidableEq ε] [DecidableEq α] :
    DecidableEq (Except ε α)
  | Except.error e, Except.error f => decidable_of_iff (e = f) (by simp)
  | Except.error _, Except.ok _ => Decidable.isFalse (by simp)
  | Except.ok _, Except.error _ => Decidable.isFalse (by simp)
  | Except.ok a, Except.ok b => decidable_of_iff (a = b) (by simp)

namespace AfricaPayments

/-- The `details` mapping carried by SDK errors.  Its entries are
opaque to the SDK (it only stores and forwards them), so string pairs
suffice. -/
abbrev Details := List (String × String)

/-- The classes of the `AfricaPaymentsError` hierarchy in
`exceptions.py`. -/
inductive ErrKind where
  | base
  | authentication
  | payment
  | validation
  | notFound
  | server
  | rateLimit
  | timeout
deriving DecidableEq, Repr

/-- An instance of (a subclass of) `AfricaPaymentsError`: the class it
was constructed through, and the `message`, `code`, `details`
attributes set by `AfricaPaymentsError.__init__`. -/
structure APError where
  kind : ErrKind
  message : String
  code : Option String
  details : Details
deriving DecidableEq, Repr

/-- A raised Python exception, as observed by the client code: either
an `AfricaPaymentsError` instance, a builtin `TypeError`, or a JSON
decode failure from `response.json()`. -/
inductive PyException where
  | ap (e : APError)
  | typeError (msg : String)
  | jsonDecodeError
deriving DecidableEq, Repr

/-- The parsed error-response body consumed by `raise_for_status`:
the values of the `message`, `code`, `details` keys, `none` when the
key is absent.  (A JSON `null` under `code` is indistinguishable from
an absent key for `dict.get`, exactly as in the Python.) -/
structure ErrorBody where
  message : Option String
  code : Option String
  details : Option Details
deriving DecidableEq, Repr

/-- `AfricaPaymentsError.__init__(message, code=None, details=None)`:
stores `message`, `code`, and `details or {}`. -/
def AfricaPaymentsError.init (message : String) (code : Option String)
    (details : Option Details) : APError :=
  APError.mk ErrKind.base message code (details.getD [])

/-- The CPython `TypeError` message produced when a keyword argument is
supplied both explicitly and through `**kwargs` in a call to
`AfricaPaymentsError.__init__`. -/
def dupCodeMsg : String :=
  "AfricaPaymentsError.__init__() got multiple values for keyword argument code"

/-- Shared shape of every `exceptions.py` subclass constructor call
`Sub(message, **kwargs)`: the subclass forwards a fixed `code=<CODE>`
to the base constructor together with `**kwargs`.  When the caller
already put a `code` entry into `kwargs` (as `raise_for_status` always
does), Python raises `TypeError: got multiple values for keyword
argument code` at the `super().__init__` call; otherwise the base
constructor runs with the fixed class code.  `kwCode = some c` means
the caller passed `code=c` (where `c` itself may be `None`). -/
def subclassInit (kind : ErrKind) (classCode : String) (message : String)
    (kwCode : Option (Option String)) (kwDetails : Option Details) :
    Except String APError :=
  match kwCode with
  | some _ => Except.error dupCodeMsg
  | none =>
      let e := AfricaPaymentsError.init message (some classCode) kwDetails
      Except.ok (APError.mk kind e.message e.code e.details)

/-- `ValidationError(message, **kwargs)` from `exceptions.py`. -/
def ValidationError.init (message : String) (kwCode : Option (Option String))
    (kwDetails : Option Details) : Except String APError :=
  subclassInit ErrKind.validation "VALIDATION_ERROR" message kwCode kwDetails

/-- `AuthenticationError(message, **kwargs)` from `exceptions.py`. -/
def AuthenticationError.init (message : String) (kwCode : Option (Option String))
    (kwDetails : Option Details) : Except String APError :=
  subclassInit ErrKind.authentication "AUTH_ERROR" message kwCode kwDetails

/-- `PaymentError(message, **kwargs)` from `exceptions.py`. -/
def PaymentError.init (message : String) (kwCode : Option (Option String))
    (kwDetails : Option Details) : Except String APError :=
  subclassInit ErrKind.payment "PAYMENT_ERROR" message kwCode kwDetails

/-- `NotFoundError(message, **kwargs)` from `exceptions.py`. -/
def NotFoundError.init (message : String) (kwCode : Option (Option String))
    (kwDetails : Option Details) : Except String APError :=
  subclassInit ErrKind.notFound "NOT_FOUND" message kwCode kwDetails

/-- `ServerError(message, **kwargs)` from `exceptions.py`. -/
def ServerError.init (message : String) (kwCode : Option (Option String))
    (kwDetails : Option Details) : Except String APError :=
  subclassInit ErrKind.server "SERVER_ERROR" message kwCode kwDetails

/-- `RateLimitError(message, **kwargs)` from `exceptions.py`. -/
def RateLimitError.init (message : String) (kwCode : Option (Option String))
    (kwDetails : Option Details) : Except String APError :=
  subclassInit ErrKind.rateLimit "RATE_LIMIT" message kwCode kwDetails

/-- `TimeoutError(message, **kwargs)` from `exceptions.py`. -/
def TimeoutError.init (message : String) (kwCode : Option (Option String))
    (kwDetails : Option Details) : Except String APError :=
  subclassInit ErrKind.timeout "TIMEOUT" message kwCode kwDetails

/-- Lift the outcome of a subclass constructor call to a raised
exception: a successful construction is immediately raised as the
classified error, a constructor `TypeError` is raised as that
`TypeError`. -/
def raiseCls : Except String APError → Except PyException Unit
  | Except.error m => Except.error (PyException.typeError m)
  | Except.ok e => Except.error (PyException.ap e)

/-- `raise_for_status(status_code, response_data)` from
`exceptions.py`: reads `message` (default "Unknown error"), `code`,
`details` (default the empty dict) from the body, then dispatches on
the status code, raising through the matching subclass constructor.
Every subclass call passes `code=code, details=details` as keyword
arguments, which collide with the fixed `code` each subclass forwards
to the base constructor.  Returns `ok` (no raise) for status codes
below 400. -/
def raise_for_status (status_code : ℕ) (response_data : ErrorBody) :
    Except PyException Unit :=
  let message := response_data.message.getD "Unknown error"
  let code := response_data.code
  let details := response_data.details.getD []
  if status_code == 400 then
    raiseCls (ValidationError.init message (some code) (some details))
  else if status_code == 401 then
    raiseCls (AuthenticationError.init message (some code) (some details))
  else if status_code == 404 then
    raiseCls (NotFoundError.init message (some code) (some details))
  else if status_code == 409 then
    raiseCls (PaymentError.init message (some code) (some details))
  else if status_code == 429 then
    raiseCls (RateLimitError.init message (some code) (some details))
  else if 500 ≤ status_code then
    raiseCls (ServerError.init message (some code) (some details))
  else if 400 ≤ status_code then
    Except.error (PyException.ap (AfricaPaymentsError.init message code (some details)))
  else
    Except.ok ()

/-!
## Request pipeline (`client.py`, `AfricaPaymentsClient._request`)

The loop `for attempt in range(self.config.max_retries + 1)` is
embedded as a fuel recursion (`fuel = max_retries + 1 - attempt` at
every call, so the fuel never runs out on the paths the Python takes).
The network is abstracted as an oracle giving the outcome of each
attempt; the simulation records the number of attempts performed, the
backoff sleeps executed, and the final outcome (returned body or
raised exception).
-/

/-- The outcome of one call to `client.request(...)` inside the retry
loop: an HTTP response (with status, the parsed JSON body when
`response.json()` succeeds, and the raw text), or a raised
`httpx.TimeoutException`, `httpx.NetworkError`, or any other
exception. -/
inductive AttemptOutcome where
  | response (status : ℕ) (body : Option ErrorBody) (text : String)
  | timeoutExc
  | networkExc (msg : String)
  | otherExc (msg : String)

/-- How one iteration of the retry loop ends: `done r` when the loop
body returns or re-raises (so the loop exits with `r`), `recorded e`
when an exception was caught and stored into `last_error` (so the
loop continues). -/
inductive StepResult where
  | done (r : Except PyException ErrorBody)
  | recorded (e : APError)
deriving DecidableEq

/-- The `try` body of one attempt: check the status, raise the
classified error for statuses at or above 400 (parsing the body as
error data, falling back to a dict wrapping the raw text when
`response.json()` fails), otherwise return `response.json()` (which
itself may raise when the body is not JSON). -/
def attemptBody (status : ℕ) (body : Option ErrorBody) (text : String) :
    Except PyException ErrorBody := do
  if 400 ≤ status then
    raise_for_status status (body.getD (ErrorBody.mk (some text) none none))
  match body with
  | some b => Except.ok b
  | none => Except.error PyException.jsonDecodeError

/-- An SDK `TimeoutError(msg)` constructed with the message only: no
keyword arguments are passed, so the constructor succeeds (the
`Except.error` branch is unreachable and maps to a dummy value). -/
def timeoutRaise (msg : String) : APError :=
  match TimeoutError.init msg none none with
  | Except.ok e => e
  | Except.error _ => AfricaPaymentsError.init "" none none

/-- The `TimeoutError` instance recorded on an `httpx.TimeoutException`:
`TimeoutError(f"Request timed out after t s")`.  `timeoutStr` stands
for the formatted `self.config.timeout`. -/
def timeoutRecord (timeoutStr : String) : APError :=
  timeoutRaise ("Request timed out after " ++ timeoutStr ++ "s")

/-- One iteration of the retry loop: run the attempt and apply the
`except` chain of `_request` in order — `httpx.TimeoutException` and
`httpx.NetworkError` record into `last_error`; an `AfricaPaymentsError`
(the classified errors raised by `raise_for_status`) is re-raised;
any other exception (notably the constructor `TypeError` from
`raise_for_status`, and JSON decode failures) is caught by the final
`except Exception` and recorded as a generic wrapper error. -/
def handleAttempt (timeoutStr : String) : AttemptOutcome → StepResult
  | AttemptOutcome.response status body text =>
      match attemptBody status body text with
      | Except.ok b => StepResult.done (Except.ok b)
      | Except.error (PyException.ap e) =>
          StepResult.done (Except.error (PyException.ap e))
      | Except.error (PyException.typeError m) =>
          StepResult.recorded (AfricaPaymentsError.init ("Request failed: " ++ m) none none)
      | Except.error PyException.jsonDecodeError =>
          StepResult.recorded (AfricaPaymentsError.init "Request failed: json decode error" none none)
  | AttemptOutcome.timeoutExc => StepResult.recorded (timeoutRecord timeoutStr)
  | AttemptOutcome.networkExc m =>
      StepResult.recorded (AfricaPaymentsError.init ("Network error: " ++ m) none none)
  | AttemptOutcome.otherExc m =>
      StepResult.recorded (AfricaPaymentsError.init ("Request failed: " ++ m) none none)

/-- The observable behaviour of one `_request` call: how many attempts
ran, the backoff sleeps (in seconds, in order) between them, and the
final outcome. -/
structure ReqTrace where
  attempts : ℕ
  sleeps : List ℕ
  result : Except PyException ErrorBody
deriving DecidableEq

/-- The final `raise last_error or AfricaPaymentsError("Request failed
after retries")` of `_request` (an exception instance is always
truthy, so the generic error is raised only when `last_error` is still
`None`). -/
def raiseFinal : Option APError → PyException
  | some e => PyException.ap e
  | none => PyException.ap (AfricaPaymentsError.init "Request failed after retries" none none)

/-- The retry loop of `_request`, from attempt index `attempt` with
`last_error = last`.  `fuel` is `max_retries + 1 - attempt` at every
reachable call, so the fuel-exhausted branch is never taken from the
top-level entry. -/
def requestAux (oracle : ℕ → AttemptOutcome) (timeoutStr : String)
    (max_retries : ℕ) : ℕ → ℕ → Option APError → ReqTrace
  | 0, _, last => ReqTrace.mk 0 [] (Except.error (raiseFinal last))
  | fuel + 1, attempt, _ =>
      match handleAttempt timeoutStr (oracle attempt) with
      | StepResult.done r => ReqTrace.mk 1 [] r
      | StepResult.recorded e =>
          if attempt < max_retries then
            let t := requestAux oracle timeoutStr max_retries fuel (attempt + 1) (some e)
            ReqTrace.mk (t.attempts + 1) (2 ^ attempt :: t.sleeps) t.result
          else
            ReqTrace.mk 1 [] (Except.error (raiseFinal (some e)))

/-- `AfricaPaymentsClient._request`, abstracted over the per-attempt
network outcome: runs up to `max_retries + 1` attempts, sleeping
`2 ^ attempt` seconds after a recorded failure when attempts remain,
and finally raising the last recorded error (or the generic fallback
when none was recorded). -/
def request_sim (oracle : ℕ → AttemptOutcome) (timeoutStr : String)
    (max_retries : ℕ) : ReqTrace :=
  requestAux oracle timeoutStr max_retries (max_retries + 1) 0 none

/-!
## Polling (`client.py`, `AfricaPaymentsClient.poll_transaction_status`)

The unbounded `while True` loop is embedded with fuel (`none` when the
fuel runs out before the loop exits, which the claims condition away).
The server is abstracted as a stream `txs` of fetched transactions
(one per `get_transaction` call, all assumed to succeed), and the
event-loop clock as a stream `clock` of the times observed at the
elapsed-time check of each iteration; `start_time` is the single
captured start time.
-/

/-- `PaymentStatus` from `models.py`. -/
inductive PaymentStatus where
  | pending
  | success
  | failed
  | cancelled
deriving DecidableEq, Repr

/-- A fetched transaction, reduced to what the polling loop inspects:
an identity and its status. -/
structure PollTx where
  id : ℕ
  status : PaymentStatus
deriving DecidableEq, Repr

/-- The observable behaviour of one `poll_transaction_status` call:
the transactions fetched (in order), the arguments passed to the
progress callback (in order), the sleep durations between fetches,
and the final outcome (returned transaction, or the raised
`TimeoutError`). -/
structure PollTrace where
  fetched : List PollTx
  cbArgs : List PollTx
  sleeps : List ℚ
  outcome : Except APError PollTx
deriving DecidableEq

/-- The body of the polling loop, from fetch index `k`: fetch, invoke
the callback when one is supplied, return when the status left
`pending`, raise `TimeoutError` when the elapsed time since
`start_time` reached `timeout`, otherwise sleep `interval` seconds and
continue. -/
def pollAux (txs : ℕ → PollTx) (clock : ℕ → ℚ) (start_time interval timeout : ℚ)
    (hasCallback : Bool) (timeoutStr : String) : ℕ → ℕ → Option PollTrace
  | 0, _ => none
  | fuel + 1, k =>
      let tx := txs k
      let cb : List PollTx := if hasCallback then [tx] else []
      if tx.status ≠ PaymentStatus.pending then
        some (PollTrace.mk [tx] cb [] (Except.ok tx))
      else if clock k - start_time ≥ timeout then
        some (PollTrace.mk [tx] cb []
          (Except.error (timeoutRaise ("Polling timed out after " ++ timeoutStr ++ "s"))))
      else
        match pollAux txs clock start_time interval timeout hasCallback timeoutStr fuel (k + 1) with
        | none => none
        | some t =>
            some (PollTrace.mk (tx :: t.fetched) (cb ++ t.cbArgs)
              (interval :: t.sleeps) t.outcome)

/-- `AfricaPaymentsClient.poll_transaction_status`, abstracted over
the fetch results and the event-loop clock. -/
def poll_transaction_status (txs : ℕ → PollTx) (clock : ℕ → ℚ)
    (start_time interval timeout : ℚ) (hasCallback : Bool) (timeoutStr : String)
    (fuel : ℕ) : Option PollTrace :=
  pollAux txs clock start_time interval timeout hasCallback timeoutStr fuel 0

/-- What claim C4 asserts of a completed polling run starting at fetch
index `k`: some number `m ≥ 1` of fetches happened, they are exactly
`txs k, …, txs (k+m-1)` in order; the callback saw exactly the fetched
transactions (when supplied) and nothing otherwise; there is one
`interval`-second sleep between consecutive fetches; every fetch
before the last found `pending` with elapsed time still below
`timeout`; and the run either returned the last fetch with a
non-`pending` status, or raised the polling `TimeoutError` with the
last fetch still `pending` and the elapsed time at or above
`timeout`. -/
def PollSpec (txs : ℕ → PollTx) (clock : ℕ → ℚ) (start_time interval timeout : ℚ)
    (hasCallback : Bool) (timeoutStr : String) (k : ℕ) (t : PollTrace) : Prop :=
  ∃ m, 1 ≤ m ∧
    t.fetched = (List.range' k m).map txs ∧
    t.cbArgs = (if hasCallback then t.fetched else []) ∧
    t.sleeps = List.replicate (m - 1) interval ∧
    (∀ i, k ≤ i → i + 1 < k + m →
      (txs i).status = PaymentStatus.pending ∧ clock i - start_time < timeout) ∧
    ((t.outcome = Except.ok (txs (k + m - 1)) ∧
        (txs (k + m - 1)).status ≠ PaymentStatus.pending) ∨
     (t.outcome = Except.error (timeoutRaise ("Polling timed out after " ++ timeoutStr ++ "s")) ∧
        (txs (k + m - 1)).status = PaymentStatus.pending ∧
        timeout ≤ clock (k + m - 1) - start_time))

/-!
## Webhook signature verification (`client.py`,
`AfricaPaymentsClient.verify_webhook_signature`)

The method computes `hmac.new(secret.encode(), payload,
hashlib.sha256).hexdigest()` and compares it to the provided
signature with `hmac.compare_digest`.  SHA-256 and HMAC are embedded
in full over byte lists (bytes as naturals below 256, 32-bit words as
naturals reduced mod `2 ^ 32`), so the digest is the real one.
`hmac.compare_digest` on two `str` arguments demands both be ASCII
and raises `TypeError` otherwise; the computed hex digest always is,
so the check falls on the provided signature.
-/

/-- Reduce to a 32-bit word. -/
def w32 (x : ℕ) : ℕ := x % 2 ^ 32

/-- Right rotation of a 32-bit word by `n`. -/
def rotr (n x : ℕ) : ℕ := w32 ((x >>> n) ||| (x <<< (32 - n)))

/-- Bitwise complement of a 32-bit word. -/
def notw (x : ℕ) : ℕ := x ^^^ 0xffffffff

/-- SHA-256 choose function. -/
def ch (x y z : ℕ) : ℕ := (x &&& y) ^^^ (notw x &&& z)

/-- SHA-256 majority function. -/
def maj (x y z : ℕ) : ℕ := (x &&& y) ^^^ (x &&& z) ^^^ (y &&& z)

/-- SHA-256 big sigma 0. -/
def bsig0 (x : ℕ) : ℕ := rotr 2 x ^^^ rotr 13 x ^^^ rotr 22 x

/-- SHA-256 big sigma 1. -/
def bsig1 (x : ℕ) : ℕ := rotr 6 x ^^^ rotr 11 x ^^^ rotr 25 x

/-- SHA-256 small sigma 0. -/
def ssig0 (x : ℕ) : ℕ := rotr 7 x ^^^ rotr 18 x ^^^ (x >>> 3)

/-- SHA-256 small sigma 1. -/
def ssig1 (x : ℕ) : ℕ := rotr 17 x ^^^ rotr 19 x ^^^ (x >>> 10)

/-- The 64 SHA-256 round constants (fractional parts of the cube
roots of the first 64 primes, scaled to 32 bits; written in decimal).
The digest test vectors below check the table. -/
def sha256K : List ℕ := [
    1116352408, 1899447441, 3049323471, 3921009573, 961987163,
    1508970993, 2453635748, 2870763221, 3624381080, 310598401,
    607225278, 1426881987, 1925078388, 2162078206, 2614888103,
    3248222580, 3835390401, 4022224774, 264347078, 604807628,
    770255983, 1249150122, 1555081692, 1996064986, 2554220882,
    2821834349, 2952996808, 3210313671, 3336571891, 3584528711,
    113926993, 338241895, 666307205, 773529912, 1294757372,
    1396182291, 1695183700, 1986661051, 2177026350, 2456956037,
    2730485921, 2820302411, 3259730800, 3345764771, 3516065817,
    3600352804, 4094571909, 275423344, 430227734, 506948616,
    659060556, 883997877, 958139571, 1322822218, 1537002063,
    1747873779, 1955562222, 2024104815, 2227730452, 2361852424,
    2428436474, 2756734187, 3204031479, 3329325298]

/-- A 64-bit length, as 8 big-endian bytes. -/
def be64 (n : ℕ) : List ℕ :=
  (List.range 8).map (fun i => (n >>> (8 * (7 - i))) &&& 0xff)

/-- A 32-bit word, as 4 big-endian bytes. -/
def be32 (n : ℕ) : List ℕ :=
  [(n >>> 24) &&& 0xff, (n >>> 16) &&& 0xff, (n >>> 8) &&& 0xff, n &&& 0xff]

/-- SHA-256 padding: a `0x80` byte, zeros to 56 mod 64, then the bit
length as 8 big-endian bytes. -/
def padMessage (msg : List ℕ) : List ℕ :=
  let L := msg.length
  msg ++ [0x80] ++ List.replicate ((119 - L % 64) % 64) 0 ++ be64 (8 * L)

/-- Group bytes into big-endian 32-bit words. -/
def bytesToWords : List ℕ → List ℕ
  | b0 :: b1 :: b2 :: b3 :: rest =>
      ((b0 <<< 24) ||| (b1 <<< 16) ||| (b2 <<< 8) ||| b3) :: bytesToWords rest
  | _ => []

/-- Group a word list into 16-word blocks. -/
def toBlocks : List ℕ → List (List ℕ)
  | w0 :: w1 :: w2 :: w3 :: w4 :: w5 :: w6 :: w7 ::
    w8 :: w9 :: w10 :: w11 :: w12 :: w13 :: w14 :: w15 :: rest =>
      [w0, w1, w2, w3, w4, w5, w6, w7, w8, w9, w10, w11, w12, w13, w14, w15]
        :: toBlocks rest
  | _ => []

/-- Extend a 16-word block to the 64-word message schedule, one word
per fuel step. -/
def extendSchedule : ℕ → List ℕ → List ℕ
  | 0, w => w
  | fuel + 1, w =>
      let n := w.length
      let next := w32 (ssig1 (w.getD (n - 2) 0) + w.getD (n - 7) 0 +
        ssig0 (w.getD (n - 15) 0) + w.getD (n - 16) 0)
      extendSchedule fuel (w ++ [next])

/-- SHA-256 working state: the eight 32-bit registers. -/
structure Hash8 where
  a : ℕ
  b : ℕ
  c : ℕ
  d : ℕ
  e : ℕ
  f : ℕ
  g : ℕ
  h : ℕ
deriving DecidableEq

/-- One SHA-256 compression round. -/
def roundStep (st : Hash8) (ki wi : ℕ) : Hash8 :=
  let t1 := w32 (st.h + bsig1 st.e + ch st.e st.f st.g + ki + wi)
  let t2 := w32 (bsig0 st.a + maj st.a st.b st.c)
  Hash8.mk (w32 (t1 + t2)) st.a st.b st.c (w32 (st.d + t1)) st.e st.f st.g

/-- Run the 64 compression rounds. -/
def roundsGo : List ℕ → List ℕ → Hash8 → Hash8
  | ki :: ks, wi :: ws, st => roundsGo ks ws (roundStep st ki wi)
  | _, _, st => st

/-- Compress one 16-word block into the state. -/
def compress (st : Hash8) (block : List ℕ) : Hash8 :=
  let w := extendSchedule 48 block
  let r := roundsGo sha256K w st
  Hash8.mk (w32 (st.a + r.a)) (w32 (st.b + r.b)) (w32 (st.c + r.c))
    (w32 (st.d + r.d)) (w32 (st.e + r.e)) (w32 (st.f + r.f))
    (w32 (st.g + r.g)) (w32 (st.h + r.h))

/-- The SHA-256 initial state (fractional parts of the square roots
of the first 8 primes, scaled to 32 bits; written in decimal). -/
def sha256Init : Hash8 :=
  Hash8.mk 1779033703 3144134277 1013904242 2773480762
    1359893119 2600822924 528734635 1541459225

/-- Compress the blocks in order. -/
def processBlocks : List (List ℕ) → Hash8 → Hash8
  | [], st => st
  | blk :: bs, st => processBlocks bs (compress st blk)

/-- SHA-256 of a byte list, as the 32 digest bytes. -/
def sha256 (msg : List ℕ) : List ℕ :=
  let final := processBlocks (toBlocks (bytesToWords (padMessage msg))) sha256Init
  be32 final.a ++ be32 final.b ++ be32 final.c ++ be32 final.d ++
    be32 final.e ++ be32 final.f ++ be32 final.g ++ be32 final.h

/-- HMAC-SHA-256 (`hmac.new(key, msg, hashlib.sha256).digest()`):
block size 64; keys longer than a block are hashed first, then padded
with zeros; inner pad `0x36`, outer pad `0x5c`. -/
def hmacSha256 (key msg : List ℕ) : List ℕ :=
  let k0 := if 64 < key.length then sha256 key else key
  let kp := k0 ++ List.replicate (64 - k0.length) 0
  sha256 ((kp.map (fun b => b ^^^ 0x5c)) ++
    sha256 ((kp.map (fun b => b ^^^ 0x36)) ++ msg))

/-- A nibble as a lowercase hex character. -/
def hexDigit (n : ℕ) : Char :=
  if n < 10 then Char.ofNat (48 + n) else Char.ofNat (87 + n)

/-- Bytes as a lowercase hex string (`.hexdigest()`). -/
def toHex (bytes : List ℕ) : String :=
  String.mk (bytes.flatMap (fun b => [hexDigit (b / 16), hexDigit (b % 16)]))

/-- UTF-8 encoding of one character, as byte values. -/
def utf8EncodeCharNat (c : Char) : List ℕ :=
  let n := c.toNat
  if n < 0x80 then [n]
  else if n < 0x800 then [0xc0 + n / 64, 0x80 + n % 64]
  else if n < 0x10000 then
    [0xe0 + n / 4096, 0x80 + (n / 64) % 64, 0x80 + n % 64]
  else
    [0xf0 + n / 262144, 0x80 + (n / 4096) % 64, 0x80 + (n / 64) % 64, 0x80 + n % 64]

/-- `str.encode()`: the UTF-8 bytes of a string. -/
def utf8Bytes (s : String) : List ℕ := s.data.flatMap utf8EncodeCharNat

/-- Whether a string is pure ASCII (the precondition
`hmac.compare_digest` places on `str` arguments). -/
def asciiOnly (s : String) : Bool := s.data.all (fun c => c.toNat ≤ 127)

/-- `AfricaPaymentsClient.verify_webhook_signature(payload, signature,
secret)`: compare the provided signature with the lowercase hex
HMAC-SHA-256 digest of the payload under the UTF-8 bytes of the
secret.  `hmac.compare_digest` raises `TypeError` when either string
contains a non-ASCII character; otherwise it returns their (constant
time) equality. -/
def verify_webhook_signature (payload : List ℕ) (signature : String)
    (secret : String) : Except PyException Bool :=
  let expected := toHex (hmacSha256 (utf8Bytes secret) payload)
  if asciiOnly signature && asciiOnly expected then
    Except.ok (signature == expected)
  else
    Except.error (PyException.typeError
      "comparing strings with non-ASCII characters is not supported")

/-!
## Data model (`models.py`)

JSON values are embedded as an inductive; pydantic validation
(`model_validate`) is embedded per model, following the field
declarations: camel-case aliases with `populate_by_name=True` (the
alias is tried first, then the field name), required fields error
when absent, `Optional` fields default to `None`.  Datetime fields
are modelled as accepting any string (the exact set of timestamp
formats pydantic parses is not modelled; none of the claims depends
on it). -/

/-- A JSON value. -/
inductive Json where
  | str (s : String)
  | num (q : ℚ)
  | bool (b : Bool)
  | null
  | arr (xs : List Json)
  | obj (fields : List (String × Json))

/-- Look a field up by its alias, then by its name
(`populate_by_name=True`). -/
def getField (o : List (String × Json)) (aliasKey fieldName : String) : Option Json :=
  match List.lookup aliasKey o with
  | some v => some v
  | none => List.lookup fieldName o

/-- A pydantic validation failure, identified by the offending
field. -/
structure PydErr where
  loc : String
deriving DecidableEq, Repr

/-- Read a required string field. -/
def reqStr (o : List (String × Json)) (aliasKey fieldName : String) :
    Except PydErr String :=
  match getField o aliasKey fieldName with
  | some (Json.str s) => Except.ok s
  | _ => Except.error (PydErr.mk fieldName)

/-- Read an optional string field (absent and `null` both give
`none`). -/
def optStr (o : List (String × Json)) (aliasKey fieldName : String) :
    Except PydErr (Option String) :=
  match getField o aliasKey fieldName with
  | none => Except.ok none
  | some Json.null => Except.ok none
  | some (Json.str s) => Except.ok (some s)
  | some _ => Except.error (PydErr.mk fieldName)

/-- Digits of a decimal literal. -/
def parseDigits (cs : List Char) : Option ℕ :=
  if cs ≠ [] ∧ cs.all Char.isDigit then
    some (cs.foldl (fun acc c => 10 * acc + (c.toNat - 48)) 0)
  else none

/-- A decimal string as an exact rational (integer part, optional
fraction, optional leading minus). -/
def parseDecimal (s : String) : Option ℚ :=
  let core : String → Option ℚ := fun t =>
    match t.splitOn "." with
    | [ip] => (parseDigits ip.data).map (fun n => (n : ℚ))
    | [ip, fp] =>
        match parseDigits ip.data, parseDigits fp.data with
        | some n, some f => some ((n : ℚ) + (f : ℚ) / (10 : ℚ) ^ fp.length)
        | _, _ => none
    | _ => none
  if s.startsWith "-" then (core (s.drop 1)).map (fun q => -q) else core s

/-- Read a `Decimal` field: a JSON number, or a numeric string
(`Decimal` is constructed from either). -/
def reqDecimal (o : List (String × Json)) (aliasKey fieldName : String) :
    Except PydErr ℚ :=
  match getField o aliasKey fieldName with
  | some (Json.num q) => Except.ok q
  | some (Json.str s) =>
      match parseDecimal s with
      | some q => Except.ok q
      | none => Except.error (PydErr.mk fieldName)
  | _ => Except.error (PydErr.mk fieldName)

/-- Parse a `PaymentStatus` enum value. -/
def parsePaymentStatus (s : String) : Option PaymentStatus :=
  if s = "pending" then some PaymentStatus.pending
  else if s = "success" then some PaymentStatus.success
  else if s = "failed" then some PaymentStatus.failed
  else if s = "cancelled" then some PaymentStatus.cancelled
  else none

/-- Read the `status` field. -/
def reqStatus (o : List (String × Json)) : Except PydErr PaymentStatus :=
  match getField o "status" "status" with
  | some (Json.str s) =>
      match parsePaymentStatus s with
      | some st => Except.ok st
      | none => Except.error (PydErr.mk "status")
  | _ => Except.error (PydErr.mk "status")

/-- `PaymentResponse` from `models.py` (datetimes kept as their raw
strings, see the section comment). -/
structure PaymentResponse where
  transaction_id : String
  status : PaymentStatus
  reference : String
  amount : ℚ
  currency : String
  phone_number : String
  created_at : String
  updated_at : String
  receipt_url : Option String
  failure_reason : Option String
deriving DecidableEq, Repr

/-- The `is_success` property: exact equality with the success
status. -/
def PaymentResponse.is_success (r : PaymentResponse) : Bool :=
  r.status == PaymentStatus.success

/-- `PaymentResponse.model_validate`: a JSON object with the required
fields `transactionId`, `status`, `reference`, `amount`, `currency`,
`phoneNumber`, `createdAt`, `updatedAt` and the optional `receiptUrl`,
`failureReason`, camel-case aliases with `populate_by_name=True`. -/
def PaymentResponse.model_validate (j : Json) : Except PydErr PaymentResponse := do
  match j with
  | Json.obj o =>
      let tid ← reqStr o "transactionId" "transaction_id"
      let st ← reqStatus o
      let ref ← reqStr o "reference" "reference"
      let amt ← reqDecimal o "amount" "amount"
      let cur ← reqStr o "currency" "currency"
      let ph ← reqStr o "phoneNumber" "phone_number"
      let ca ← reqStr o "createdAt" "created_at"
      let ua ← reqStr o "updatedAt" "updated_at"
      let ru ← optStr o "receiptUrl" "receipt_url"
      let fr ← optStr o "failureReason" "failure_reason"
      Except.ok (PaymentResponse.mk tid st ref amt cur ph ca ua ru fr)
  | _ => Except.error (PydErr.mk "__root__")

/-- `WebhookEvent` from `models.py` (timestamp kept as its raw
string). -/
structure WebhookEvent where
  event_type : String
  data : PaymentResponse
  timestamp : String
  signature : String
deriving DecidableEq, Repr

/-- `WebhookEvent.model_validate`: requires `eventType`, `data` (a
`PaymentResponse` object), `timestamp`, `signature`. -/
def WebhookEvent.model_validate (j : Json) : Except PydErr WebhookEvent := do
  match j with
  | Json.obj o =>
      let et ← reqStr o "eventType" "event_type"
      let data ←
        match getField o "data" "data" with
        | some dj => PaymentResponse.model_validate dj
        | none => Except.error (PydErr.mk "data")
      let ts ← reqStr o "timestamp" "timestamp"
      let sg ← reqStr o "signature" "signature"
      Except.ok (WebhookEvent.mk et data ts sg)
  | _ => Except.error (PydErr.mk "__root__")

/-!
## Webhook dispatch and the handler registry (`client.py`)

A handler is a function from the event to `Except E Unit`: `ok` when
the handler (and, for an async handler, awaiting its coroutine)
finishes normally, `error` when it raises.  The dispatcher invokes
handlers in registration order inside `try ... except Exception:
pass`, so a raising handler is recorded in the outcome list and the
loop continues.
-/

/-- The `for handler in self._event_handlers` loop of
`handle_webhook`: each handler is invoked once, its outcome collected;
a raised exception is caught and discarded, and iteration
continues. -/
def runHandlers {E : Type} (ev : WebhookEvent) :
    List (WebhookEvent → Except E Unit) → List (Except E Unit)
  | [] => []
  | h :: rest => h ev :: runHandlers ev rest

/-- `AfricaPaymentsClient.handle_webhook(payload)`: deserialize the
payload into a `WebhookEvent` (a failure propagates to the caller,
before any handler runs), then dispatch to every registered handler.
The first component is what the call itself does (return or raise);
the second is the invocation log: one entry per handler invocation,
in order, with that invocation's outcome. -/
def handle_webhook {E : Type} (payload : Json)
    (handlers : List (WebhookEvent → Except E Unit)) :
    Except PydErr Unit × List (Except E Unit) :=
  match WebhookEvent.model_validate payload with
  | Except.error e => (Except.error e, [])
  | Except.ok ev => (Except.ok (), runHandlers ev handlers)

/-- `AfricaPaymentsClient.verify_payment(transaction_id)`, abstracted
over the result of `self.get_transaction(transaction_id)`: the
`is_success` flag of the fetched transaction, or `False` when the
fetch raised anything (`except Exception: return False`). -/
def verify_payment (fetch : Except PyException PaymentResponse) : Bool :=
  match fetch with
  | Except.ok tx => tx.is_success
  | Except.error _ => false

/-- `AfricaPaymentsClient.add_event_handler`: `list.append`. -/
def add_event_handler {α : Type} (handlers : List α) (handler : α) : List α :=
  handlers ++ [handler]

/-- `AfricaPaymentsClient.remove_event_handler`: `list.remove`, which
deletes the first occurrence and raises `ValueError` (here `error ()`)
when the element is absent. -/
def remove_event_handler {α : Type} [DecidableEq α] :
    List α → α → Except Unit (List α)
  | [], _ => Except.error ()
  | x :: xs, h =>
      if x = h then Except.ok xs
      else (remove_event_handler xs h).map (fun r => x :: r)

/-!
## Payment requests and wire serialization (`models.py`,
`PaymentRequest`)

`PaymentRequest` amounts are `Decimal`, embedded as exact rationals.
`to_api_payload` coerces the amount with `float(...)`, i.e. rounds it
to the nearest IEEE-754 binary64 value (ties to even).  That rounding
is embedded below for positive rationals in the normal range (the
only inputs a valid request can carry: pydantic enforces
`amount > 0`, and payment amounts are nowhere near the subnormal or
overflow thresholds), by scaling into `[2 ^ 52, 2 ^ 53)` and rounding
the scaled significand half-to-even.
-/

/-- `PaymentProvider` from `models.py`. -/
inductive PaymentProvider where
  | mpesa
  | mtn
  | vodafone
  | airtel
  | bank
  | card
deriving DecidableEq, Repr

/-- The wire value of a provider. -/
def PaymentProvider.value : PaymentProvider → String
  | PaymentProvider.mpesa => "mpesa"
  | PaymentProvider.mtn => "mtn"
  | PaymentProvider.vodafone => "vodafone"
  | PaymentProvider.airtel => "airtel"
  | PaymentProvider.bank => "bank"
  | PaymentProvider.card => "card"

/-- Double the significand until it reaches `2 ^ 52`, tracking the
binary exponent. -/
def f64normUp : ℕ → ℚ → ℤ → ℚ × ℤ
  | 0, s, e => (s, e)
  | fuel + 1, s, e =>
      if s < 2 ^ 52 then f64normUp fuel (2 * s) (e - 1) else (s, e)

/-- Halve the significand until it is below `2 ^ 53`, tracking the
binary exponent. -/
def f64normDown : ℕ → ℚ → ℤ → ℚ × ℤ
  | 0, s, e => (s, e)
  | fuel + 1, s, e =>
      if (2 : ℚ) ^ 53 ≤ s then f64normDown fuel (s / 2) (e + 1) else (s, e)

/-- `2 ^ e` as a rational, for an integer exponent. -/
def pow2z : ℤ → ℚ
  | Int.ofNat n => 2 ^ n
  | Int.negSucc n => 1 / 2 ^ (n + 1)

/-- Round a rational to an integer, half to even. -/
def roundHalfEven (s : ℚ) : ℤ :=
  let n := ⌊s⌋
  let r := s - (n : ℚ)
  if r < 1 / 2 then n
  else if 1 / 2 < r then n + 1
  else if n % 2 = 0 then n else n + 1

/-- The binary64 value nearest a positive rational in the normal
range: scale the value into `[2 ^ 52, 2 ^ 53)`, round the scaled
significand half to even, and scale back. -/
def pyFloatPos (q : ℚ) : ℚ :=
  let up := f64normUp 1300 q 0
  let p := f64normDown 1300 up.1 up.2
  (roundHalfEven p.1 : ℚ) * pow2z p.2

/-- Python `float(Decimal(...))`: correctly rounded binary64
conversion (normal range). -/
def pyFloat (q : ℚ) : ℚ :=
  if q = 0 then 0
  else if 0 < q then pyFloatPos q
  else -pyFloatPos (-q)

/-- `PaymentRequest` from `models.py`, after validation: the amount as
the exact decimal value, the currency upper-cased, the phone number
reduced to its digits. -/
structure PaymentRequest where
  amount : ℚ
  currency : String
  phone_number : String
  reference : String
  description : Option String
  callback_url : Option String
  metadata : Option (List (String × Json))
  provider : Option PaymentProvider

/-- The `validate_phone_number` field validator: strip non-digit
characters, then require between 9 and 15 digits. -/
def validate_phone_number (v : String) : Except String String :=
  let cleaned := String.mk (v.data.filter Char.isDigit)
  if cleaned.length < 9 ∨ 15 < cleaned.length then
    Except.error "Invalid phone number length"
  else Except.ok cleaned

/-- The `validate_currency` field validator: upper-case the code
(character-wise, as `str.upper` acts on the codes in question). -/
def validate_currency (v : String) : String :=
  String.mk (v.data.map Char.toUpper)

/-- Constructing a `PaymentRequest`: pydantic enforces the field
constraints (`amount` strictly positive, `currency` exactly three
characters, `reference` non-empty), then runs the field validators
(currency upper-cased, phone number cleaned and length-checked). -/
def PaymentRequest.validate (amount : ℚ) (currency phone_number reference : String)
    (description callback_url : Option String)
    (metadata : Option (List (String × Json)))
    (provider : Option PaymentProvider) : Except String PaymentRequest :=
  if ¬0 < amount then Except.error "Input should be greater than 0"
  else if currency.length ≠ 3 then Except.error "currency length must be 3"
  else if reference.length < 1 then Except.error "reference must be non-empty"
  else
    match validate_phone_number phone_number with
    | Except.error e => Except.error e
    | Except.ok cleaned =>
        Except.ok (PaymentRequest.mk amount (validate_currency currency) cleaned
          reference description callback_url metadata provider)

/-- `PaymentRequest.to_api_payload`: `model_dump(by_alias=True,
exclude_none=True)` (camel-case aliases, `None` fields omitted, field
declaration order), then the `amount` entry overwritten with
`float(self.amount)`. -/
def PaymentRequest.to_api_payload (r : PaymentRequest) : List (String × Json) :=
  [("amount", Json.num (pyFloat r.amount)), ("currency", Json.str r.currency),
      ("phoneNumber", Json.str r.phone_number), ("reference", Json.str r.reference)] ++
    (match r.description with
      | some d => [("description", Json.str d)]
      | none => []) ++
    (match r.callback_url with
      | some u => [("callbackUrl", Json.str u)]
      | none => []) ++
    (match r.metadata with
      | some m => [("metadata", Json.obj m)]
      | none => []) ++
    (match r.provider with
      | some p => [("provider", Json.str p.value)]
      | none => [])

/-- The `amount` entry of a serialized payload, as a rational. -/
def payloadAmount (payload : List (String × Json)) : Option ℚ :=
  match List.lookup "amount" payload with
  | some (Json.num q) => some q
  | _ => none

/-- The `currency` entry of a serialized payload. -/
def payloadCurrency (payload : List (String × Json)) : Option String :=
  match List.lookup "currency" payload with
  | some (Json.str s) => some s
  | _ => none



/-!
## Theorems

One theorem per claim of the specification, with counterexamples and
witnesses where required.  Supporting lemmas come first.
-/


/-- A representative error body with all three keys present. -/
def bodyFull : ErrorBody :=
  ErrorBody.mk (some "Invalid phone number") (some "INVALID_PHONE")
    (some [("field", "phone_number")])

/-- Unfolding lemma: the dispatcher invokes the handlers left to
right, collecting the outcome of each. -/
theorem runHandlers_eq_map {E : Type} (ev : WebhookEvent)
    (hs : List (WebhookEvent → Except E Unit)) :
    runHandlers ev hs = hs.map (fun f => f ev) := by
  induction hs with
  | nil => rfl
  | cons h rest ih => simp [runHandlers, ih]

/-- The retry loop under an oracle whose every attempt records a
failure: with `fuel` attempts remaining from attempt index `k`
(`k + fuel = N + 1`), it performs exactly `fuel` attempts, sleeps
`2 ^ k, …, 2 ^ (N - 1)` between them, and finally raises the failure
recorded at the last attempt `N`. -/
theorem requestAux_recorded (oracle : ℕ → AttemptOutcome) (tstr : String)
    (N : ℕ) (err : ℕ → APError)
    (hstep : ∀ k, handleAttempt tstr (oracle k) = StepResult.recorded (err k)) :
    ∀ fuel k last, 1 ≤ fuel → k + fuel = N + 1 →
      requestAux oracle tstr N fuel k last =
        ReqTrace.mk fuel ((List.range' k (fuel - 1)).map (fun a => 2 ^ a))
          (Except.error (PyException.ap (err N))) := by
  intro fuel
  induction fuel with
  | zero => intro k last h1 _; exact absurd h1 (by omega)
  | succ f ih =>
      intro k last _ hk
      rcases Nat.eq_zero_or_pos f with hf | hf
      · subst hf
        have hkN : k = N := by omega
        subst hkN
        simp [requestAux, hstep k, raiseFinal]
      · have hkN : k < N := by omega
        have hrec := ih (k + 1) (some (err k)) hf (by omega)
        have hf1 : f = (f - 1) + 1 := by omega
        have hr : List.range' k f = k :: List.range' (k + 1) (f - 1) := by
          conv_lhs => rw [hf1]
          rw [List.range'_succ]
        simp [requestAux, hstep k, hkN, hrec, hr]

/-- C1: the spec (and the docstring and tests of `exceptions.py`) say
`raise_for_status` raises the classified taxonomy error for each
status in the table, carrying the message, code and details of the
body.  The code instead raises a builtin `TypeError` for every status
in the table (400, 401, 404, 409, 429, and all statuses at or above
500), because each subclass constructor receives the keyword argument
`code` twice — once fixed by the subclass, once forwarded from the
response body by `raise_for_status`.  Only the residual branch (other
statuses at or above 400, e.g. 402) raises a classified error as
documented. -/
theorem C1_raise_for_status_raises_type_error :
    raise_for_status 400 bodyFull = Except.error (PyException.typeError dupCodeMsg) ∧
    raise_for_status 401 bodyFull = Except.error (PyException.typeError dupCodeMsg) ∧
    raise_for_status 404 bodyFull = Except.error (PyException.typeError dupCodeMsg) ∧
    raise_for_status 409 bodyFull = Except.error (PyException.typeError dupCodeMsg) ∧
    raise_for_status 429 bodyFull = Except.error (PyException.typeError dupCodeMsg) ∧
    raise_for_status 500 bodyFull = Except.error (PyException.typeError dupCodeMsg) ∧
    raise_for_status 503 bodyFull = Except.error (PyException.typeError dupCodeMsg) ∧
    raise_for_status 402 bodyFull = Except.error (PyException.ap
      (APError.mk ErrKind.base "Invalid phone number" (some "INVALID_PHONE")
        [("field", "phone_number")])) := by
  decide

/-- C2: the spec says a response with status 400 causes exactly one
attempt and an immediately raised classified error.  In the code, the
`TypeError` raised inside `raise_for_status` (claim C1) is caught by
the final `except Exception` clause of `_request` and treated as a
retryable failure: with the default `max_retries = 3`, a persistent
400 response produces four attempts, backoff sleeps of 1, 2 and 4
seconds, and a final generic `AfricaPaymentsError` wrapping the
`TypeError` — not the `ValidationError` the repository tests expect.
A status outside the taxonomy table (403, final conjunct) does behave
as the claim says: one attempt, classified error, no sleeps. -/
theorem C2_request_retries_on_400 :
    request_sim (fun _ => AttemptOutcome.response 400 (some bodyFull) "") "30.0" 3 =
      ReqTrace.mk 4 [1, 2, 4] (Except.error (PyException.ap
        (AfricaPaymentsError.init ("Request failed: " ++ dupCodeMsg) none none))) ∧
    request_sim (fun _ => AttemptOutcome.response 403 (some bodyFull) "") "30.0" 3 =
      ReqTrace.mk 1 [] (Except.error (PyException.ap
        (APError.mk ErrKind.base "Invalid phone number" (some "INVALID_PHONE")
          [("field", "phone_number")]))) := by
  decide

/-- C3: with `max_retries = N` and every attempt timing out, `_request`
performs exactly `N + 1` attempts, sleeps `2 ^ attempt` seconds
between consecutive attempts (1, 2, …, 2 ^ (N - 1)), and finally
raises the last recorded `TimeoutError` (first conjunct).  When the
recorded failures are not network or timeout failures (an oracle
raising an unrelated exception each attempt), the error finally
raised is a generic `AfricaPaymentsError` (second conjunct). -/
theorem C3_retry_count_and_backoff (N : ℕ) (tstr : String) :
    request_sim (fun _ => AttemptOutcome.timeoutExc) tstr N =
      ReqTrace.mk (N + 1) ((List.range N).map (fun a => 2 ^ a))
        (Except.error (PyException.ap (timeoutRecord tstr))) ∧
    request_sim (fun _ => AttemptOutcome.otherExc "boom") tstr N =
      ReqTrace.mk (N + 1) ((List.range N).map (fun a => 2 ^ a))
        (Except.error (PyException.ap
          (AfricaPaymentsError.init "Request failed: boom" none none))) := by
  constructor
  · rw [request_sim, requestAux_recorded (fun _ => AttemptOutcome.timeoutExc) tstr N
      (fun _ => timeoutRecord tstr) (fun _ => rfl) (N + 1) 0 none (by omega) (by omega)]
    simp [List.range_eq_range']
  · rw [request_sim, requestAux_recorded (fun _ => AttemptOutcome.otherExc "boom") tstr N
      (fun _ => AfricaPaymentsError.init "Request failed: boom" none none)
      (fun _ => rfl) (N + 1) 0 none (by omega) (by omega)]
    simp [List.range_eq_range']

/-- C7: `verify_payment` returns a boolean for every fetch outcome
(any raised exception is swallowed), and that boolean is `true`
exactly when the fetch succeeded and the fetched transaction has
status `success`. -/
theorem C7_verify_payment_true_iff (fetch : Except PyException PaymentResponse) :
    verify_payment fetch = true ↔
      ∃ tx, fetch = Except.ok tx ∧ tx.status = PaymentStatus.success := by
  cases fetch with
  | error e => simp [verify_payment]
  | ok tx =>
      simp only [verify_payment, PaymentResponse.is_success, beq_iff_eq]
      constructor
      · intro h; exact ⟨tx, rfl, h⟩
      · rintro ⟨tx2, h1, h2⟩; cases h1; exact h2

/-- C9 counterexample: the registry operations are not idempotent —
adding the same handler twice to an empty registry gives a two-element
registry, not the one-element registry a single add gives; and
removing from a registry that does not contain the handler raises
`ValueError` instead of being a no-op. -/
theorem C9_counterexample :
    add_event_handler (add_event_handler ([] : List ℕ) 0) 0 ≠
      add_event_handler ([] : List ℕ) 0 ∧
    remove_event_handler ([] : List ℕ) 0 = Except.error () := by
  decide

/-- C9 (amended): `add_event_handler` is `list.append` — it always
grows the registry by one entry, so adding a handler twice yields two
registrations; `remove_event_handler` is `list.remove` — it deletes
the first occurrence of the handler when present and raises
`ValueError` when absent. -/
theorem C9_registry_append_remove (l : List ℕ) (h : ℕ) :
    (add_event_handler (add_event_handler l h) h).length = l.length + 2 ∧
    remove_event_handler l h =
      (if h ∈ l then Except.ok (l.erase h) else Except.error ()) := by
  constructor
  · simp [add_event_handler]
  · induction l with
    | nil => simp [remove_event_handler]
    | cons x xs ih =>
        by_cases hx : x = h
        · subst hx
          simp [remove_event_handler, List.erase_cons]
        · simp only [remove_event_handler, if_neg hx, ih, List.erase_cons]
          have hbeq : (x == h) = false := by simp [hx]
          have hx2 : ¬h = x := fun hh => hx hh.symm
          by_cases hm : h ∈ xs
          · simp [hm, hx2, hbeq, Except.map]
          · simp [hm, hx2, hbeq, Except.map]

/-- C6: when the payload deserializes into a `WebhookEvent`,
`handle_webhook` returns normally and its invocation log is exactly
the registered handler list mapped over the event — every handler is
invoked exactly once, in registration order, each with the same
deserialized event, and a raising handler contributes an `error`
entry to the log without stopping the later handlers or failing the
call. -/
theorem C6_handle_webhook_dispatches_all {E : Type} (payload : Json)
    (hs : List (WebhookEvent → Except E Unit)) (ev : WebhookEvent)
    (h : WebhookEvent.model_validate payload = Except.ok ev) :
    handle_webhook payload hs = (Except.ok (), hs.map (fun f => f ev)) := by
  simp [handle_webhook, h, runHandlers_eq_map]

/-- C10: when the payload fails to deserialize into a `WebhookEvent`,
`handle_webhook` raises that deserialization error to its caller and
the invocation log is empty — no registered handler runs; the
catch-and-discard protection covers only handler failures after a
successful deserialization. -/
theorem C10_handle_webhook_invalid_payload {E : Type} (payload : Json)
    (hs : List (WebhookEvent → Except E Unit)) (e : PydErr)
    (h : WebhookEvent.model_validate payload = Except.error e) :
    handle_webhook payload hs = (Except.error e, ([] : List (Except E Unit))) := by
  simp [handle_webhook, h]


/-- A well-formed wire-format transaction object, as in the repository
test fixtures. -/
def samplePaymentJson : Json :=
  Json.obj [("transactionId", Json.str "tx-123"), ("status", Json.str "pending"),
    ("reference", Json.str "REF-001"), ("amount", Json.num 1000),
    ("currency", Json.str "KES"), ("phoneNumber", Json.str "254712345678"),
    ("createdAt", Json.str "2024-01-01T00:00:00Z"),
    ("updatedAt", Json.str "2024-01-01T00:00:00Z")]

/-- The transaction `samplePaymentJson` deserializes to. -/
def samplePayment : PaymentResponse :=
  PaymentResponse.mk "tx-123" PaymentStatus.pending "REF-001" 1000 "KES"
    "254712345678" "2024-01-01T00:00:00Z" "2024-01-01T00:00:00Z" none none

/-- A well-formed webhook payload wrapping `samplePaymentJson`. -/
def sampleWebhookJson : Json :=
  Json.obj [("eventType", Json.str "payment.updated"), ("data", samplePaymentJson),
    ("timestamp", Json.str "2024-01-01T00:05:00Z"), ("signature", Json.str "abc123")]

/-- The same payload with the required `signature` field missing. -/
def badWebhookJson : Json :=
  Json.obj [("eventType", Json.str "payment.updated"), ("data", samplePaymentJson),
    ("timestamp", Json.str "2024-01-01T00:05:00Z")]

/-- The event `sampleWebhookJson` deserializes to. -/
def sampleEvent : WebhookEvent :=
  WebhookEvent.mk "payment.updated" samplePayment "2024-01-01T00:05:00Z" "abc123"

/-- Two registered handlers, the first of which raises. -/
def sampleHandlers : List (WebhookEvent → Except String Unit) :=
  [fun _ => Except.error "handler exploded", fun _ => Except.ok ()]

/-- C6 witness: on a concrete valid payload with two registered
handlers of which the first raises, the call returns normally and
both handlers were invoked, in order. -/
theorem C6_witness :
    handle_webhook sampleWebhookJson sampleHandlers =
      (Except.ok (), [Except.error "handler exploded", Except.ok ()]) :=
  C6_handle_webhook_dispatches_all sampleWebhookJson sampleHandlers sampleEvent rfl

/-- C10 witness: on a concrete payload missing the required
`signature` field, the call raises the deserialization error and the
invocation log is empty. -/
theorem C10_witness :
    handle_webhook badWebhookJson sampleHandlers =
      (Except.error (PydErr.mk "signature"), ([] : List (Except String Unit))) :=
  C10_handle_webhook_invalid_payload badWebhookJson sampleHandlers
    (PydErr.mk "signature") rfl

/-- Characterization of a completed polling run, generalized over the
starting fetch index for the induction. -/
theorem pollAux_spec (txs : ℕ → PollTx) (clock : ℕ → ℚ)
    (start_time interval timeout : ℚ) (hasCallback : Bool) (timeoutStr : String) :
    ∀ fuel k t,
      pollAux txs clock start_time interval timeout hasCallback timeoutStr fuel k =
        some t →
      PollSpec txs clock start_time interval timeout hasCallback timeoutStr k t := by
  intro fuel
  induction fuel with
  | zero => intro k t h; exact absurd h (by simp [pollAux])
  | succ fuel ih =>
      intro k t h
      simp only [pollAux] at h
      split at h
      case isTrue h1 =>
        cases h
        refine ⟨1, le_refl 1, by simp, ?_, by simp, ?_, ?_⟩
        · cases hasCallback <;> simp
        · intro i hi1 hi2; omega
        · exact Or.inl ⟨by simp, by simpa using h1⟩
      case isFalse h1 =>
        split at h
        case isTrue h2 =>
          cases h
          refine ⟨1, le_refl 1, by simp, ?_, by simp, ?_, ?_⟩
          · cases hasCallback <;> simp
          · intro i hi1 hi2; omega
          · refine Or.inr ⟨by simp, ?_, ?_⟩
            · simpa using not_not.mp (by simpa using h1)
            · simpa using h2
        case isFalse h2 =>
          cases hrec : pollAux txs clock start_time interval timeout hasCallback
              timeoutStr fuel (k + 1) with
          | none => rw [hrec] at h; exact absurd h (by simp)
          | some t0 =>
              rw [hrec] at h
              cases h
              obtain ⟨m0, hm0, hf, hcb, hsl, hmid, hout⟩ := ih (k + 1) t0 hrec
              refine ⟨m0 + 1, by omega, ?_, ?_, ?_, ?_, ?_⟩
              · simp only [hf, List.range'_succ, List.map_cons]
              · cases hasCallback <;> simp_all
              · simp only [hsl, Nat.add_sub_cancel]
                conv_rhs => rw [show m0 = (m0 - 1) + 1 by omega, List.replicate_succ]
              · intro i hi1 hi2
                rcases Nat.eq_or_lt_of_le hi1 with hik | hik
                · subst hik
                  exact ⟨not_not.mp (by simpa using h1), lt_of_not_le (by simpa using h2)⟩
                · exact hmid i hik (by omega)
              · have hidx : k + 1 + m0 - 1 = k + (m0 + 1) - 1 := by omega
                rw [hidx] at hout
                exact hout

/-- C4: whenever `poll_transaction_status` completes (returns or
raises within the fuel bound), the run satisfies `PollSpec` from
index 0: the fetches are consecutive, the progress callback (when
supplied) was invoked once after every fetch, the loop slept
`interval` seconds between consecutive fetches, every non-final fetch
found a `pending` status with elapsed time (against the single
captured start time) still below `timeout`; the run returns the first
transaction whose status left `pending`, and raises the polling
`TimeoutError` exactly when the status was still `pending` with the
elapsed time at or above `timeout`. -/
theorem C4_poll_spec (txs : ℕ → PollTx) (clock : ℕ → ℚ)
    (start_time interval timeout : ℚ) (hasCallback : Bool) (timeoutStr : String)
    (fuel : ℕ) (t : PollTrace)
    (h : poll_transaction_status txs clock start_time interval timeout hasCallback
        timeoutStr fuel = some t) :
    PollSpec txs clock start_time interval timeout hasCallback timeoutStr 0 t :=
  pollAux_spec txs clock start_time interval timeout hasCallback timeoutStr fuel 0 t h

/-- A server whose transaction is pending on the first fetch and
successful on the second. -/
def pollTxsW : ℕ → PollTx :=
  fun k => PollTx.mk k (if k = 0 then PaymentStatus.pending else PaymentStatus.success)

/-- A clock well below the timeout bound at the first check. -/
def pollClockW : ℕ → ℚ := fun k => if k = 0 then 5 else 10

/-- C4 witness: a concrete run — pending then success, interval 5,
timeout 300 — completes in two fetches with both callback invocations
and one sleep, and satisfies the polling specification. -/
theorem C4_witness :
    PollSpec pollTxsW pollClockW 0 5 300 true "300" 0
      (PollTrace.mk [PollTx.mk 0 PaymentStatus.pending, PollTx.mk 1 PaymentStatus.success]
        [PollTx.mk 0 PaymentStatus.pending, PollTx.mk 1 PaymentStatus.success]
        [5] (Except.ok (PollTx.mk 1 PaymentStatus.success))) :=
  C4_poll_spec pollTxsW pollClockW 0 5 300 true "300" 3 _ (by decide)


set_option maxRecDepth 20000 in
/-- SHA-256 test vector: the empty message (checks the embedding
against the standard digest). -/
theorem sha256_empty_vector :
    toHex (sha256 []) =
      "e3b0c44298fc1c149afbf4c8996fb92427ae41e4649b934ca495991b7852b855" := by
  decide

set_option maxRecDepth 40000 in
/-- HMAC-SHA-256 test vector (RFC 4231, case 2). -/
theorem hmac_rfc4231_vector :
    toHex (hmacSha256 (utf8Bytes "Jefe") (utf8Bytes "what do ya want for nothing?")) =
      "5bdcc146bf60754e6a042426089575c75a003f089d2739839dec58b964ec3843" := by
  decide

/-- Hex digits of nibbles are ASCII. -/
theorem hexDigit_ascii : ∀ d < 16, (hexDigit d).toNat ≤ 127 := by decide

/-- Every byte emitted by `be32` is at most 255. -/
theorem be32_le (n : ℕ) : ∀ b ∈ be32 n, b ≤ 255 := by
  intro b hb
  simp only [be32, List.mem_cons, List.not_mem_nil, or_false] at hb
  rcases hb with h | h | h | h <;> subst h <;>
    exact le_trans Nat.and_le_right (by norm_num)

/-- Every byte of a SHA-256 digest is at most 255. -/
theorem sha256_bytes_le (msg : List ℕ) : ∀ b ∈ sha256 msg, b ≤ 255 := by
  intro b hb
  simp only [sha256, List.mem_append] at hb
  rcases hb with ((((((h | h) | h) | h) | h) | h) | h) | h <;> exact be32_le _ b h

/-- The hex rendering of a digest is pure ASCII. -/
theorem toHex_ascii (bytes : List ℕ) (hb : ∀ b ∈ bytes, b ≤ 255) :
    asciiOnly (toHex bytes) = true := by
  simp only [asciiOnly, toHex, List.all_eq_true, decide_eq_true_eq]
  intro c hc
  simp only [List.mem_flatMap] at hc
  obtain ⟨b, hbm, hc2⟩ := hc
  have hble := hb b hbm
  simp only [List.mem_cons, List.not_mem_nil, or_false] at hc2
  rcases hc2 with h | h <;> subst h
  · exact hexDigit_ascii (b / 16) (by omega)
  · exact hexDigit_ascii (b % 16) (by omega)

/-- C5 counterexample: the claim promises a boolean for every provided
signature, `false` whenever the signature differs from the digest.
For the (differing) non-ASCII signature below, the code instead
raises `TypeError` from `hmac.compare_digest`. -/
theorem C5_counterexample :
    verify_webhook_signature [] "é" "secret" =
      Except.error (PyException.typeError
        "comparing strings with non-ASCII characters is not supported") ∧
    verify_webhook_signature [] "é" "secret" ≠ Except.ok false := by
  constructor <;> decide

/-- C5 (amended): for every payload, secret, and ASCII-only provided
signature, verification returns a boolean, `true` exactly when the
signature equals the lowercase hex HMAC-SHA-256 digest of the payload
keyed by the secret, and `false` exactly when it differs (the result
is deterministic — the embedding is a pure function); a non-ASCII
signature instead raises `TypeError` (see the counterexample). -/
theorem C5_verify_signature_iff (payload : List ℕ) (sig secret : String)
    (h : asciiOnly sig = true) :
    (verify_webhook_signature payload sig secret = Except.ok true ↔
      sig = toHex (hmacSha256 (utf8Bytes secret) payload)) ∧
    (verify_webhook_signature payload sig secret = Except.ok false ↔
      sig ≠ toHex (hmacSha256 (utf8Bytes secret) payload)) := by
  have hexp : asciiOnly (toHex (hmacSha256 (utf8Bytes secret) payload)) = true := by
    apply toHex_ascii
    exact sha256_bytes_le _
  simp only [verify_webhook_signature, h, hexp, Bool.true_and, if_true]
  constructor
  · simp only [Except.ok.injEq, beq_iff_eq]
  · constructor
    · intro hok
      have hbf : (sig == toHex (hmacSha256 (utf8Bytes secret) payload)) = false := by
        simpa using hok
      exact beq_eq_false_iff_ne.mp hbf
    · intro hne
      have hbf : (sig == toHex (hmacSha256 (utf8Bytes secret) payload)) = false :=
        beq_eq_false_iff_ne.mpr hne
      simp [hbf]

/-- The RFC 4231 case-2 message, as the webhook payload bytes. -/
def rfcPayload : List ℕ := utf8Bytes "what do ya want for nothing?"

/-- The RFC 4231 case-2 digest, as the provided signature. -/
def rfcDigest : String :=
  "5bdcc146bf60754e6a042426089575c75a003f089d2739839dec58b964ec3843"

set_option maxRecDepth 40000 in
/-- C5 witness: a concrete correct signature verifies to `ok true`. -/
theorem C5_witness :
    verify_webhook_signature rfcPayload rfcDigest "Jefe" = Except.ok true :=
  ((C5_verify_signature_iff rfcPayload rfcDigest "Jefe" (by decide)).1).mpr (by decide)

set_option maxRecDepth 20000 in
/-- C8 counterexample: a valid request with amount `Decimal("0.1")`
(and currency "kes") serializes its amount to
`float(Decimal("0.1")) = 7205759403792794 / 2 ^ 56`, which is not the
decimal value 1/10 — the claimed exact round-trip fails on decimals
with no finite binary representation. -/
theorem C8_counterexample :
    (PaymentRequest.validate (1 / 10) "kes" "254712345678" "ORDER-123"
          none none none none).map (fun r => payloadAmount r.to_api_payload) =
      Except.ok (some ((7205759403792794 : ℚ) / 2 ^ 56)) ∧
    ((7205759403792794 : ℚ) / 2 ^ 56) ≠ (1 / 10 : ℚ) := by
  constructor <;> decide

/-- C8 (amended): for every validated request, the serialized payload
carries `amount` as the binary64 floating-point value nearest the
decimal amount (ties to even; equal to the decimal exactly when the
decimal is representable in binary64, but not in general), and
`currency` as the upper-cased input code. -/
theorem C8_payload_amount_currency (a : ℚ) (currency phone ref : String)
    (d cu : Option String) (md : Option (List (String × Json)))
    (pv : Option PaymentProvider) (r : PaymentRequest)
    (h : PaymentRequest.validate a currency phone ref d cu md pv = Except.ok r) :
    payloadAmount r.to_api_payload = some (pyFloat a) ∧
    payloadCurrency r.to_api_payload = some (validate_currency currency) := by
  simp only [PaymentRequest.validate] at h
  split_ifs at h
  cases hph : validate_phone_number phone with
  | error e => rw [hph] at h; exact absurd h (by simp)
  | ok cleaned =>
      rw [hph] at h
      cases h
      constructor
      · simp [PaymentRequest.to_api_payload, payloadAmount, List.lookup]
      · simp [PaymentRequest.to_api_payload, payloadCurrency, List.lookup]

/-- The validated form of the request used in the repository test
fixtures (`amount=1000.00, currency="KES"`). -/
def sampleRequest : PaymentRequest :=
  PaymentRequest.mk 1000 "KES" "254712345678" "ORDER-123" none none none none

/-- C8 witness: for the concrete valid request with the representable
amount 1000, the payload amount is `float(1000)` and the currency is
the upper-cased code. -/
theorem C8_witness :
    payloadAmount sampleRequest.to_api_payload = some (pyFloat 1000) ∧
    payloadCurrency sampleRequest.to_api_payload = some (validate_currency "KES") :=
  C8_payload_amount_currency 1000 "KES" "254712345678" "ORDER-123"
    none none none none sampleRequest (by rfl)

end AfricaPayments
